import Mathlib

/-!
Verification of the ResearchPilot agent execution/retry substrate and pipeline
supervisor, shallowly embedded from `backend/agents/base_agent.py`,
`backend/agents/orchestrator.py` and `backend/models/document.py`.

Modelling conventions:
* Python dicts are association lists `List (String × JValue)`; dict values are
  the JSON-like `JValue`.  Python dict assignment is `setKey` (update-in-place
  for an existing key, append otherwise, preserving insertion order) and
  `dict.get` is `getKey`.
* Wall-clock time is counted in abstract time units as the cumulative backoff
  delay of `asyncio.sleep(2 ** retry_count)` calls; the work function itself is
  charged zero units.  The orchestrator's own wall clock is abstracted to 0.
* One attempt of `BaseAgent.execute`'s try-block (`run`, `validate`,
  `model_dump`, `AgentResult(...)` construction) is a `WorkBehavior` value:
  either a raised exception (its message) or the resulting output payload,
  which is `none` exactly when the Python attempt produces `output=None`.
* `asyncio.gather(..., return_exceptions=True)` collects one terminal
  `AgentResult` per task in creation order; each stage agent is modelled as a
  function from its input to the terminal `AgentResult` its `execute` returns
  (`BaseAgent.execute` never raises, which is proved below as claim C3).
* The one statement of `run_pipeline` that can raise is
  `StructuredDocument(**ingestion_result.output)` (a pydantic validation
  error); `run_pipeline`'s result is therefore an `Except` whose error case is
  that propagated fault.  Pydantic validation of `StructuredDocument` is
  embedded from `models/document.py` (required fields and field types; lax-mode
  numeric-string coercions are not modelled, no theorem depends on them).
-/

namespace ResearchPilot

/-- JSON-like value standing for a Python object stored in a dict. -/
inductive JValue where
  | null
  | str (s : String)
  | num (n : Int)
  | arr (xs : List JValue)
  | obj (fields : List (String × JValue))

/-- A Python dict, as an insertion-ordered association list. -/
abbrev Payload := List (String × JValue)

/-- Python `d.get(k)` on an association-list dict. -/
def getKey {α : Type} (l : List (String × α)) (k : String) : Option α :=
  (l.find? (·.1 = k)).map (·.2)

/-- Python `d[k] = v`: update an existing key in place, else append (dicts
preserve insertion order). -/
def setKey {α : Type} (l : List (String × α)) (k : String) (v : α) : List (String × α) :=
  if l.any (·.1 = k) then l.map (fun kv => if kv.1 = k then (k, v) else kv) else l ++ [(k, v)]

/-- Truthiness of an `Optional[dict]`: `None` and `{}` are falsy. -/
def truthy : Option Payload → Bool
  | none => false
  | some p => !p.isEmpty

/-- Wrap an `Optional[dict]` back into a dict value (`None` becomes JSON null). -/
def optJ : Option Payload → JValue
  | none => .null
  | some p => .obj p

/-! ## models/document.py -/

/-- Model of `Section` from `models/document.py`: `title: str`, `content: str`,
`subsections: list["Section"] = []`. -/
inductive DocSection where
  | mk (title : String) (content : String) (subsections : List DocSection)

/-- Model of `FigureMetadata` from `models/document.py`. -/
structure FigureMetadata where
  figure_id : String
  caption : String
  page_number : Int

/-- Model of `StructuredDocument` from `models/document.py`; `references`, `figures` and
`page_count` have defaults, every other field is required. -/
structure StructuredDocument where
  title : String
  authors : List String
  abstract : String
  sections : List DocSection
  references : List String := []
  figures : List FigureMetadata := []
  source_type : String
  raw_text : String
  page_count : Int := 0

/-- Pydantic validation of a required `str` field. -/
def reqStr (fields : Payload) (k : String) : Except String String :=
  match getKey fields k with
  | some (.str s) => .ok s
  | some _ => .error (k ++ ": input is not a valid string")
  | none => .error (k ++ ": field required")

/-- Pydantic validation of a `list[str]` value. -/
def parseStrList (k : String) : List JValue → Except String (List String)
  | [] => .ok []
  | .str s :: xs => do
      let rest ← parseStrList k xs
      .ok (s :: rest)
  | _ :: _ => .error (k ++ ": input is not a valid string")

/-- Pydantic validation of a required `list[str]` field. -/
def reqStrList (fields : Payload) (k : String) : Except String (List String) :=
  match getKey fields k with
  | some (.arr xs) => parseStrList k xs
  | some _ => .error (k ++ ": input is not a valid list")
  | none => .error (k ++ ": field required")

/-- Pydantic validation of a `list[str]` field with default `[]`. -/
def optStrList (fields : Payload) (k : String) : Except String (List String) :=
  match getKey fields k with
  | some (.arr xs) => parseStrList k xs
  | some _ => .error (k ++ ": input is not a valid list")
  | none => .ok []

/-- Pydantic validation of an `int` field with a default. -/
def optInt (fields : Payload) (k : String) (dflt : Int) : Except String Int :=
  match getKey fields k with
  | some (.num n) => .ok n
  | some _ => .error (k ++ ": input is not a valid integer")
  | none => .ok dflt

/-- Pydantic validation of one `FigureMetadata` object. -/
def parseFigure : JValue → Except String FigureMetadata
  | .obj fields => do
      let fid ← reqStr fields "figure_id"
      let cap ← reqStr fields "caption"
      let pn ← match getKey fields "page_number" with
        | some (.num n) => Except.ok n
        | some _ => Except.error "page_number: input is not a valid integer"
        | none => Except.error "page_number: field required"
      .ok ⟨fid, cap, pn⟩
  | _ => .error "figures: input is not a valid object"

/-- Pydantic validation of the `figures` list. -/
def parseFigureList : List JValue → Except String (List FigureMetadata)
  | [] => .ok []
  | x :: xs => do
      let f ← parseFigure x
      let rest ← parseFigureList xs
      .ok (f :: rest)

mutual

/-- Pydantic validation of one `Section` object (recursively validating
`subsections`). -/
def parseSection : JValue → Except String DocSection
  | .obj fields => do
      let t ← reqStr fields "title"
      let c ← reqStr fields "content"
      let subs ← parseSubsFields fields
      .ok (.mk t c subs)
  | _ => .error "sections: input is not a valid object"

/-- Find the `subsections` field among a section's fields and validate it;
absent means the default `[]`. -/
def parseSubsFields : List (String × JValue) → Except String (List DocSection)
  | [] => .ok []
  | (k, v) :: rest =>
      if k = "subsections" then parseSectionsVal v else parseSubsFields rest

/-- Pydantic validation of a `list[Section]` value. -/
def parseSectionsVal : JValue → Except String (List DocSection)
  | .arr xs => parseSectionArr xs
  | _ => .error "subsections: input is not a valid list"

/-- Pydantic validation of each element of a section list. -/
def parseSectionArr : List JValue → Except String (List DocSection)
  | [] => .ok []
  | x :: xs => do
      let s ← parseSection x
      let rest ← parseSectionArr xs
      .ok (s :: rest)

end

/-- Pydantic validation of the required `sections` field's value. -/
def parseSectionListField : JValue → Except String (List DocSection)
  | .arr xs => parseSectionArr xs
  | _ => .error "sections: input is not a valid list"

/-- Model of `StructuredDocument(**d)`: pydantic validation of a dict against
`StructuredDocument` (extra keys are ignored, pydantic's default). Returns the
validated document or the validation error that the constructor raises. -/
def mkStructuredDocument (d : Payload) : Except String StructuredDocument := do
  let title ← reqStr d "title"
  let authors ← reqStrList d "authors"
  let abstract ← reqStr d "abstract"
  let sections ← match getKey d "sections" with
    | some v => parseSectionListField v
    | none => Except.error "sections: field required"
  let references ← optStrList d "references"
  let figures ← match getKey d "figures" with
    | some (.arr xs) => parseFigureList xs
    | some _ => Except.error "figures: input is not a valid list"
    | none => Except.ok []
  let source_type ← reqStr d "source_type"
  let raw_text ← reqStr d "raw_text"
  let page_count ← optInt d "page_count" 0
  .ok { title, authors, abstract, sections, references, figures, source_type, raw_text,
        page_count }

/-! ## backend/agents/base_agent.py -/

-- Status constants of the `AgentStatus` class in `base_agent.py`.
namespace AgentStatus

def IDLE : String := "idle"

def RUNNING : String := "running"

def SUCCESS : String := "success"

def FAILED : String := "failed"

def RETRYING : String := "retrying"

end AgentStatus

/-- Model of `AgentResult` from `base_agent.py`.  `execution_time_seconds` is in
abstract time units (see the module header). -/
structure AgentResult where
  status : String
  output : Option Payload := none
  error : Option String := none
  execution_time_seconds : Nat := 0
  retry_count : Nat := 0

/-- One attempt of the try-block of `BaseAgent.execute` (`run`, `validate`,
`model_dump`, `AgentResult` construction), as a function of the retry count at
which it happens: either a raised exception's message, or the produced output
payload (`none` when the attempt produces `output=None`). -/
abbrev WorkBehavior := Nat → Except String (Option Payload)

/-- Observable outcome of one `BaseAgent.execute` call: the returned
`AgentResult`, the cumulative backoff delay slept, and how many times the work
function was invoked. -/
structure ExecOutcome where
  result : AgentResult
  slept : Nat
  calls : Nat

namespace BaseAgent

/-- The `while retry_count <= self.max_retries` loop of `BaseAgent.execute`.
`fuel` is the number of loop iterations still allowed by the guard; `execute`
supplies `(max_retries + 1).toNat`, exactly the iteration count of the Python
loop, so `fuel = 0` is the guard being false (the post-loop
`"Max retries exceeded"` return) and the inner `fuel = 0` test is
`retry_count > self.max_retries` after the increment. -/
def executeLoop (work : WorkBehavior) : Nat → Nat → Nat → Nat → ExecOutcome
  | 0, retryCount, slept, calls =>
      { result := { status := AgentStatus.FAILED, output := none,
                    error := some "Max retries exceeded",
                    execution_time_seconds := slept, retry_count := retryCount },
        slept := slept, calls := calls }
  | fuel + 1, retryCount, slept, calls =>
      match work retryCount with
      | .ok out =>
          { result := { status := AgentStatus.SUCCESS, output := out, error := none,
                        execution_time_seconds := slept, retry_count := retryCount },
            slept := slept, calls := calls + 1 }
      | .error e =>
          if fuel = 0 then
            { result := { status := AgentStatus.FAILED, output := none, error := some e,
                          execution_time_seconds := slept, retry_count := retryCount + 1 },
              slept := slept, calls := calls + 1 }
          else
            executeLoop work fuel (retryCount + 1) (slept + 2 ^ (retryCount + 1)) (calls + 1)

/-- Model of `BaseAgent.execute`: run the retry loop from `retry_count = 0` with the
configured `max_retries` (an `int`, default 2, possibly negative). -/
def execute (work : WorkBehavior) (max_retries : Int) : ExecOutcome :=
  executeLoop work (max_retries + 1).toNat 0 0 0

/-- Default of `config.get("max_retries", 2)`. -/
def defaultMaxRetries : Int := 2

end BaseAgent

/-! ## backend/agents/orchestrator.py -/

/-- One event delivered to every registered progress callback by
`Orchestrator._emit`: the stage, its new status, the detail text, and the
snapshot of `self.pipeline_status` taken at emission time.  A failing callback
is caught and logged inside `_emit`, so callbacks never alter the run; the
event list below is exactly what the callbacks receive. -/
structure ProgressEvent where
  stage : String
  status : String
  detail : String
  pipeline : List (String × (String × String))

/-- The mutable state an `Orchestrator` instance owns: `self.results` and
`self.pipeline_status` (both created in `__init__`, hence per instance, not
per `run_pipeline` call). -/
structure OrchState where
  results : List (String × AgentResult) := []
  pipeline_status : List (String × (String × String)) := []

/-- State of a freshly constructed `Orchestrator` (`__init__`). -/
def freshState : OrchState := {}

/-- The seven stage agents.  Each is the `execute` entry point of the
corresponding `BaseAgent` subclass, abstracted as a function from the exact
input `run_pipeline` passes it to the terminal `AgentResult` it returns
(claim C3 below proves `execute` always returns and never raises).  Inputs
mirror the call sites: `extraction` receives the re-validated
`StructuredDocument` (or `None` when the ingestion output was `None`);
`related_research` and `code_generation` receive `extraction_result.output`
(an `Optional[dict]`) directly; the rest receive dicts built by
`run_pipeline`. -/
structure StageAgents where
  ingestion : Payload → AgentResult
  extraction : Option StructuredDocument → AgentResult
  simplification : Payload → AgentResult
  related_research : Option Payload → AgentResult
  code_generation : Option Payload → AgentResult
  literature_review : Payload → AgentResult
  gap_analysis : Payload → AgentResult

namespace Orchestrator

/-- Model of `Orchestrator.STAGES`. -/
def STAGES : List String :=
  ["reading_paper", "extracting_methodology", "finding_related_work",
   "comparing_contributions", "detecting_research_gaps", "generating_hypothesis",
   "building_prototype"]

/-- Model of `Orchestrator._emit`: update `self.pipeline_status[stage]` and produce the
event handed to every progress callback. -/
def emit (s : OrchState) (stage status detail : String) : OrchState × ProgressEvent :=
  let ps := setKey s.pipeline_status stage (status, detail)
  ({ s with pipeline_status := ps }, ⟨stage, status, detail, ps⟩)

/-- The `safe_output` closure of `Orchestrator._assemble_output`: a stage's
output if its result is present, `SUCCESS` and truthy, else the `{}`
placeholder. -/
def safe_output (results : List (String × AgentResult)) (key : String) : Payload :=
  match getKey results key with
  | some result =>
      if result.status = AgentStatus.SUCCESS ∧ truthy result.output then
        result.output.getD []
      else []
  | none => []

/-- One entry of the `agent_statuses` metadata table. -/
structure StatusEntry where
  status : String
  time : Nat
  error : Option String

/-- The `metadata` block of the assembled output. -/
structure PipelineMetadata where
  total_time : Nat
  agent_statuses : List (String × StatusEntry)

/-- The dict returned by `Orchestrator._assemble_output` (and hence by
`run_pipeline`). -/
structure PipelineOutput where
  paper : Payload
  knowledge_card : Payload
  explanations : Payload
  related_papers : Payload
  literature_review : Payload
  gap_analysis : Payload
  code_prototype : Payload
  metadata : PipelineMetadata

/-- The metadata entry `{"status": ..., "time": ..., "error": ...}` built for
one result in `_assemble_output`'s `agent_statuses` comprehension. -/
def statusEntryOf (v : AgentResult) : StatusEntry :=
  { status := v.status, time := v.execution_time_seconds, error := v.error }

/-- Model of `Orchestrator._assemble_output`. -/
def assemble_output (results : List (String × AgentResult)) (total_time : Nat) :
    PipelineOutput :=
  { paper := safe_output results "ingestion",
    knowledge_card := safe_output results "extraction",
    explanations := safe_output results "simplification",
    related_papers := safe_output results "related_research",
    literature_review := safe_output results "literature_review",
    gap_analysis := safe_output results "gap_analysis",
    code_prototype := safe_output results "code_generation",
    metadata := { total_time := total_time,
                  agent_statuses := results.map (fun kv => (kv.1, statusEntryOf kv.2)) } }

/-- The synthetic result `run_pipeline` records for the literature-review stage
when related research is unavailable (stage 4 skipped). -/
def relatedUnavailableResult : AgentResult :=
  { status := AgentStatus.FAILED, error := some "Related research unavailable" }

/-- Everything observable about one `run_pipeline` call: the returned value
(`Except.error` is a fault propagated to the caller — the only such statement
is the `StructuredDocument(**ingestion_result.output)` re-validation), the
progress events in emission order, the final instance state, the agent keys
whose `execute` was awaited (in creation order for the concurrent group), and
the result-table keys assigned during this call. -/
structure RunResult where
  out : Except String PipelineOutput
  events : List ProgressEvent
  state : OrchState
  invoked : List String
  written : List String

/-- Model of `StructuredDocument(**output) if isinstance(output, dict) else output`:
re-validate the ingestion output as a `StructuredDocument`; `None` passes
through; a dict that fails pydantic validation raises. -/
def docOfOutput : Option Payload → Except String (Option StructuredDocument)
  | none => .ok none
  | some d => (mkStructuredDocument d).map some

/-- Model of `Orchestrator.run_pipeline`, started on instance state `s0` (a freshly
constructed instance has `s0 = freshState`; the state is not reset inside
`run_pipeline`).  The orchestrator's wall clock is abstracted: every
`time.time() - start_time` is 0 time units. -/
def run_pipeline (agents : StageAgents) (s0 : OrchState) (raw_input : Payload) : RunResult :=
  -- STAGE 1: Ingestion
  let (s1, e1) := emit s0 "reading_paper" "running" "Parsing paper..."
  let ingestion_result := agents.ingestion raw_input
  let s2 := { s1 with results := setKey s1.results "ingestion" ingestion_result }
  if ingestion_result.status = AgentStatus.FAILED then
    let (s3, e2) := emit s2 "reading_paper" "failed" (ingestion_result.error.getD "")
    { out := .ok (assemble_output s3.results 0), events := [e1, e2], state := s3,
      invoked := ["ingestion"], written := ["ingestion"] }
  else
    let (s3, e2) := emit s2 "reading_paper" "done" "✓"
    -- STAGE 2: Knowledge Extraction
    let (s4, e3) := emit s3 "extracting_methodology" "running" "Extracting knowledge..."
    match docOfOutput ingestion_result.output with
    | .error err =>
        -- the pydantic ValidationError propagates out of run_pipeline
        { out := .error err, events := [e1, e2, e3], state := s4,
          invoked := ["ingestion"], written := ["ingestion"] }
    | .ok doc =>
    let extraction_result := agents.extraction doc
    let s5 := { s4 with results := setKey s4.results "extraction" extraction_result }
    if extraction_result.status = AgentStatus.FAILED then
      let (s6, e4) := emit s5 "extracting_methodology" "failed" (extraction_result.error.getD "")
      { out := .ok (assemble_output s6.results 0), events := [e1, e2, e3, e4], state := s6,
        invoked := ["ingestion", "extraction"], written := ["ingestion", "extraction"] }
    else
      let (s6, e4) := emit s5 "extracting_methodology" "done" "✓"
      -- STAGE 3: Parallel — Simplification + Related Research + Code Gen
      let (s7, e5) := emit s6 "finding_related_work" "running" "Finding related papers..."
      let (s8, e6) := emit s7 "comparing_contributions" "running" "Analyzing contributions..."
      let (s9, e7) := emit s8 "building_prototype" "running" "Generating code..."
      let simp_res := agents.simplification
        [("document", optJ ingestion_result.output), ("knowledge", optJ extraction_result.output)]
      let related_res := agents.related_research extraction_result.output
      let code_res := agents.code_generation extraction_result.output
      -- gather: the three tasks run concurrently and each yields exactly one
      -- terminal AgentResult; results are collected in creation order.
      let r10 := setKey (setKey (setKey s9.results "simplification" simp_res)
        "related_research" related_res) "code_generation" code_res
      let s10 := { s9 with results := r10 }
      let (s11, e8) := emit s10 "finding_related_work" "done" "✓"
      let (s12, e9) := emit s11 "comparing_contributions" "done" "✓"
      let (s13, e10) := emit s12 "building_prototype" "done" "✓"
      -- STAGE 4: Literature Review (needs related papers)
      let (s14, e11) := emit s13 "detecting_research_gaps" "running" "Building literature review..."
      let related_output := getKey s14.results "related_research"
      let litStep : AgentResult × Bool :=
        match related_output with
        | some ro =>
            if ro.status = AgentStatus.SUCCESS then
              (agents.literature_review
                [("knowledge", optJ extraction_result.output), ("related", optJ ro.output)], true)
            else (relatedUnavailableResult, false)
        | none => (relatedUnavailableResult, false)
      let s15 := { s14 with results := setKey s14.results "literature_review" litStep.1 }
      -- STAGE 5: Gap Analysis (needs literature review)
      let (s16, e12) := emit s15 "generating_hypothesis" "running" "Analyzing research gaps..."
      let lit_output := getKey s16.results "literature_review"
      let gap_input : Payload :=
        [("knowledge", optJ extraction_result.output),
         ("review", match lit_output with
            | some lo => if lo.status = AgentStatus.SUCCESS then optJ lo.output else .obj []
            | none => .obj []),
         ("related", match related_output with
            | some ro => if ro.status = AgentStatus.SUCCESS then optJ ro.output else .obj []
            | none => .obj [])]
      let gap_result := agents.gap_analysis gap_input
      let s17 := { s16 with results := setKey s16.results "gap_analysis" gap_result }
      let (s18, e13) := emit s17 "detecting_research_gaps" "done" "✓"
      let (s19, e14) := emit s18 "generating_hypothesis" "done" "✓"
      { out := .ok (assemble_output s19.results 0),
        events := [e1, e2, e3, e4, e5, e6, e7, e8, e9, e10, e11, e12, e13, e14],
        state := s19,
        invoked := ["ingestion", "extraction", "simplification", "related_research",
                    "code_generation"] ++ (if litStep.2 then ["literature_review"] else [])
                   ++ ["gap_analysis"],
        written := ["ingestion", "extraction", "simplification", "related_research",
                    "code_generation", "literature_review", "gap_analysis"] }

/-- Per-stage status subsequence of a run's progress events (claim C8's
"sequence of progress events emitted for that stage"). -/
def stageStatuses (R : RunResult) (stage : String) : List String :=
  R.events.filterMap (fun e => if e.stage = stage then some e.status else none)

end Orchestrator

/-! ## Work behaviors used to exercise the retry engine -/

/-- A work function that fails (raises) on its first `k` invocations and then
succeeds with payload `p` forever after. -/
def failsThenSucceeds (k : Nat) (p : Payload) : WorkBehavior :=
  fun n => if n < k then .error "transient failure" else .ok (some p)

/-- A work function that always fails. -/
def alwaysFails : WorkBehavior := fun _ => .error "transient failure"

/-! ## Lemmas about the retry loop -/

namespace BaseAgent

theorem executeLoop_status (work : WorkBehavior) (fuel : Nat) :
    ∀ rc s c, (executeLoop work fuel rc s c).result.status = AgentStatus.SUCCESS ∨
      (executeLoop work fuel rc s c).result.status = AgentStatus.FAILED := by
  induction fuel with
  | zero => intro rc s c; right; rfl
  | succ fuel ih =>
    intro rc s c
    cases hw : work rc with
    | ok out => left; simp [executeLoop, hw]
    | error e =>
      by_cases hf : fuel = 0
      · right; simp [executeLoop, hw, hf]
      · simpa [executeLoop, hw, hf] using ih (rc + 1) (s + 2 ^ (rc + 1)) (c + 1)

theorem executeLoop_shape (work : WorkBehavior) (fuel : Nat) :
    ∀ rc s c,
      ((executeLoop work fuel rc s c).result.status = AgentStatus.FAILED →
        (executeLoop work fuel rc s c).result.output = none ∧
        ∃ msg, (executeLoop work fuel rc s c).result.error = some msg) ∧
      ((executeLoop work fuel rc s c).result.status = AgentStatus.SUCCESS →
        (executeLoop work fuel rc s c).result.error = none ∧
        ∃ k, work k = .ok (executeLoop work fuel rc s c).result.output) := by
  induction fuel with
  | zero =>
    intro rc s c
    refine ⟨fun _ => ⟨rfl, "Max retries exceeded", rfl⟩, fun h => ?_⟩
    simp [executeLoop, AgentStatus.SUCCESS, AgentStatus.FAILED] at h
  | succ fuel ih =>
    intro rc s c
    cases hw : work rc with
    | ok out =>
      refine ⟨fun h => ?_, fun _ => ?_⟩
      · simp [executeLoop, hw, AgentStatus.SUCCESS, AgentStatus.FAILED] at h
      · exact ⟨by simp [executeLoop, hw], rc, by simp [executeLoop, hw]⟩
    | error e =>
      by_cases hf : fuel = 0
      · refine ⟨fun _ => ⟨by simp [executeLoop, hw, hf], e, by simp [executeLoop, hw, hf]⟩,
          fun h => ?_⟩
        simp [executeLoop, hw, hf, AgentStatus.SUCCESS, AgentStatus.FAILED] at h
      · simpa [executeLoop, hw, hf] using ih (rc + 1) (s + 2 ^ (rc + 1)) (c + 1)

/-- Total backoff delay slept by `f` consecutive failing attempts starting at
retry count `j`: `2^(j+1) + 2^(j+2) + ... + 2^(j+f)`. -/
def backoffTotal (j : Nat) : Nat → Nat
  | 0 => 0
  | f + 1 => 2 ^ (j + 1) + backoffTotal (j + 1) f

theorem backoffTotal_closed : ∀ f j, backoffTotal j f + 2 ^ (j + 1) = 2 ^ (j + f + 1) := by
  intro f
  induction f with
  | zero => intro j; simp [backoffTotal]
  | succ f ih =>
    intro j
    have h2 : 2 ^ (j + 2) = 2 ^ (j + 1) + 2 ^ (j + 1) := by
      rw [pow_succ]; omega
    have hrec := ih (j + 1)
    have hj : j + 1 + f + 1 = j + (f + 1) + 1 := by omega
    rw [hj] at hrec
    simp only [backoffTotal]
    omega

theorem executeLoop_failsThen (m : Nat) (p : Payload) :
    ∀ f j s c, j + f = m →
      executeLoop (failsThenSucceeds m p) (f + 1) j s c =
        { result := { status := AgentStatus.SUCCESS, output := some p, error := none,
                      execution_time_seconds := s + backoffTotal j f,
                      retry_count := m },
          slept := s + backoffTotal j f, calls := c + f + 1 } := by
  intro f
  induction f with
  | zero =>
    intro j s c hj
    subst hj
    simp only [Nat.add_zero] at *
    have hw : failsThenSucceeds j p j = .ok (some p) := by
      simp [failsThenSucceeds]
    simp [executeLoop, hw, backoffTotal]
  | succ f ih =>
    intro j s c hj
    have hjm : j < m := by omega
    have hw : failsThenSucceeds m p j = .error "transient failure" := by
      simp [failsThenSucceeds, hjm]
    have hrec := ih (j + 1) (s + 2 ^ (j + 1)) (c + 1) (by omega)
    rw [show f + 1 + 1 = (f + 1) + 1 from rfl, executeLoop, hw]
    simp only [Nat.succ_ne_zero, if_false]
    rw [hrec]
    have e1 : s + 2 ^ (j + 1) + backoffTotal (j + 1) f = s + backoffTotal j (f + 1) := by
      simp only [backoffTotal]; omega
    have e2 : c + 1 + f + 1 = c + (f + 1) + 1 := by omega
    rw [e1, e2]

theorem executeLoop_alwaysFails :
    ∀ f j s c, executeLoop alwaysFails (f + 1) j s c =
      { result := { status := AgentStatus.FAILED, output := none,
                    error := some "transient failure",
                    execution_time_seconds := s + backoffTotal j f,
                    retry_count := j + f + 1 },
        slept := s + backoffTotal j f, calls := c + f + 1 } := by
  intro f
  induction f with
  | zero =>
    intro j s c
    simp [executeLoop, alwaysFails, backoffTotal]
  | succ f ih =>
    intro j s c
    have hrec := ih (j + 1) (s + 2 ^ (j + 1)) (c + 1)
    rw [show f + 1 + 1 = (f + 1) + 1 from rfl, executeLoop]
    show (if f + 1 = 0 then _ else _) = _
    simp only [Nat.succ_ne_zero, if_false]
    rw [hrec]
    have e1 : s + 2 ^ (j + 1) + backoffTotal (j + 1) f = s + backoffTotal j (f + 1) := by
      simp only [backoffTotal]; omega
    have e2 : c + 1 + f + 1 = c + (f + 1) + 1 := by omega
    have e3 : j + 1 + f + 1 = j + (f + 1) + 1 := by omega
    rw [e1, e2, e3]

theorem execute_nat_fuel (work : WorkBehavior) (m : Nat) :
    execute work (m : Int) = executeLoop work (m + 1) 0 0 0 := by
  unfold execute
  norm_num

end BaseAgent

/-- Geometric backoff total: the spec's cumulative delay `Σ 2^k, k = 1..m`. -/
theorem sum_backoff (m : Nat) : (∑ k ∈ Finset.Icc 1 m, 2 ^ k) = 2 ^ (m + 1) - 2 := by
  induction m with
  | zero => simp
  | succ m ih =>
    rw [Finset.sum_Icc_succ_top (by omega : 1 ≤ m + 1), ih, pow_succ]
    have : 2 ≤ 2 ^ (m + 1) := by
      calc 2 = 2 ^ 1 := by norm_num
      _ ≤ 2 ^ (m + 1) := Nat.pow_le_pow_right (by omega) (by omega)
    omega

/-! ## Claims C2, C3, C4, C10: the Task Unit retry engine -/

/-- C2 (counterexample): at maximum retry count `m = 0`, a work function that
fails exactly `m + 1 = 1` times and then succeeds does NOT make `execute`
return `Succeeded` with `retry_count = 0`; the loop only allows `m + 1`
attempts, all of which fail, so the call returns `Failed` with
`retry_count = 1`. -/
theorem C2_counterexample :
    ¬((BaseAgent.execute (failsThenSucceeds 1 []) 0).result.status = AgentStatus.SUCCESS ∧
      (BaseAgent.execute (failsThenSucceeds 1 []) 0).result.retry_count = 0) ∧
    (BaseAgent.execute (failsThenSucceeds 1 []) 0).result.status = AgentStatus.FAILED ∧
    (BaseAgent.execute (failsThenSucceeds 1 []) 0).result.retry_count = 1 := by
  exact ⟨by decide, by decide, by decide⟩

/-- C2 (amended): for every configured maximum retry count `m ≥ 0`, a work
function that fails exactly `m` times then succeeds yields `Succeeded` with
`retry_count = m`; one that always fails yields `Failed` with
`retry_count = m + 1` after at least `Σ 2^k (k = 1..m)` time units of
cumulative backoff delay. -/
theorem C2_amended (m : Nat) (p : Payload) :
    ((BaseAgent.execute (failsThenSucceeds m p) (m : Int)).result.status = AgentStatus.SUCCESS ∧
     (BaseAgent.execute (failsThenSucceeds m p) (m : Int)).result.retry_count = m) ∧
    ((BaseAgent.execute alwaysFails (m : Int)).result.status = AgentStatus.FAILED ∧
     (BaseAgent.execute alwaysFails (m : Int)).result.retry_count = m + 1 ∧
     (∑ k ∈ Finset.Icc 1 m, 2 ^ k) ≤ (BaseAgent.execute alwaysFails (m : Int)).slept) := by
  have h1 := BaseAgent.execute_nat_fuel (failsThenSucceeds m p) m
  have h2 := BaseAgent.execute_nat_fuel alwaysFails m
  have hA := BaseAgent.executeLoop_failsThen m p m 0 0 0 (by omega)
  have hB := BaseAgent.executeLoop_alwaysFails m 0 0 0
  have hc := BaseAgent.backoffTotal_closed m 0
  have hz : (0 : Nat) + m + 1 = m + 1 := by omega
  rw [hz] at hc
  have hs := sum_backoff m
  refine ⟨?_, ?_⟩
  · rw [h1, hA]
    exact ⟨rfl, rfl⟩
  · rw [h2, hB]
    refine ⟨rfl, show (0 : Nat) + m + 1 = m + 1 by omega, ?_⟩
    show (∑ k ∈ Finset.Icc 1 m, 2 ^ k) ≤ 0 + BaseAgent.backoffTotal 0 m
    omega

/-- C3: every call of `BaseAgent.execute` returns exactly one terminal
`AgentResult`, with status `SUCCESS` or `FAILED`.  The call never raises past
its own boundary: the embedding of `execute` is a total function for every
work behavior (including behaviors whose every attempt raises), so every
failure of the work function or validation hook, including retry exhaustion,
surfaces as a returned `Failed` result, never as a propagated fault. -/
theorem C3_execute_terminal (work : WorkBehavior) (max_retries : Int) :
    (BaseAgent.execute work max_retries).result.status = AgentStatus.SUCCESS ∨
    (BaseAgent.execute work max_retries).result.status = AgentStatus.FAILED :=
  BaseAgent.executeLoop_status work _ 0 0 0

/-- C4 (counterexample): a Task Result produced by `BaseAgent.execute` can
have status `Succeeded` with an absent (`None`) output: it suffices that the
work function returns `None`, since the success branch stores the validated
value unchanged.  This falsifies "output is present if and only if the status
is Succeeded". -/
theorem C4_counterexample :
    (BaseAgent.execute (fun _ => .ok none) 2).result.status = AgentStatus.SUCCESS ∧
    (BaseAgent.execute (fun _ => .ok none) 2).result.output = none := by
  exact ⟨rfl, rfl⟩

/-- C4 (amended): for every Task Result returned by `BaseAgent.execute`, the
error field is present if the status is `Failed` and absent if the status is
`Succeeded`; the output field is absent when the status is `Failed`, and when
the status is `Succeeded` it is exactly the payload produced by the work
function/validation hook — which is present unless the work function itself
returned `None`.  The Supervisor-synthesized result for a skipped stage also
satisfies the invariant (`Failed`, error present, output absent). -/
theorem C4_amended (work : WorkBehavior) (max_retries : Int) :
    (((BaseAgent.execute work max_retries).result.status = AgentStatus.FAILED →
       (BaseAgent.execute work max_retries).result.output = none ∧
       ∃ msg, (BaseAgent.execute work max_retries).result.error = some msg) ∧
     ((BaseAgent.execute work max_retries).result.status = AgentStatus.SUCCESS →
       (BaseAgent.execute work max_retries).result.error = none ∧
       ∃ k, work k = .ok (BaseAgent.execute work max_retries).result.output)) ∧
    (Orchestrator.relatedUnavailableResult.status = AgentStatus.FAILED ∧
     Orchestrator.relatedUnavailableResult.output = none ∧
     Orchestrator.relatedUnavailableResult.error = some "Related research unavailable") := by
  exact ⟨BaseAgent.executeLoop_shape work _ 0 0 0, rfl, rfl, rfl⟩

/-- C4 (witness): the amended claim applied at two concrete calls — an
always-failing unit with `max_retries = 1` (discharging the `Failed`
hypothesis) and an immediately succeeding unit (discharging the `Succeeded`
hypothesis). -/
theorem C4_amended_witness :
    ((BaseAgent.execute alwaysFails 1).result.output = none ∧
     ∃ msg, (BaseAgent.execute alwaysFails 1).result.error = some msg) ∧
    ((BaseAgent.execute (fun _ => .ok (some [("a", .str "b")])) 2).result.error = none ∧
     ∃ k, (fun _ => .ok (some [("a", .str "b")]) : WorkBehavior) k =
       .ok (BaseAgent.execute (fun _ => .ok (some [("a", .str "b")])) 2).result.output) := by
  refine ⟨(C4_amended alwaysFails 1).1.1 (by decide), ?_⟩
  exact (C4_amended (fun _ => .ok (some [("a", .str "b")])) 2).1.2 rfl

/-- C10: for a unit configured with a negative maximum retry count, the while
loop guard `retry_count <= max_retries` is false at entry, so `execute`
returns `Failed` with error text "Max retries exceeded" and `retry_count = 0`
without ever invoking the work function. -/
theorem C10_negative_max_retries (work : WorkBehavior) (max_retries : Int)
    (h : max_retries < 0) :
    (BaseAgent.execute work max_retries).result.status = AgentStatus.FAILED ∧
    (BaseAgent.execute work max_retries).result.error = some "Max retries exceeded" ∧
    (BaseAgent.execute work max_retries).result.retry_count = 0 ∧
    (BaseAgent.execute work max_retries).calls = 0 := by
  have hz : (max_retries + 1).toNat = 0 := by omega
  unfold BaseAgent.execute
  rw [hz]
  exact ⟨rfl, rfl, rfl, rfl⟩

/-- C10 (witness): the theorem applied at `max_retries = -1` with a work
function that would succeed if it were ever invoked. -/
theorem C10_negative_max_retries_witness :
    (BaseAgent.execute (fun _ => .ok (some [])) (-1)).result.status = AgentStatus.FAILED ∧
    (BaseAgent.execute (fun _ => .ok (some [])) (-1)).result.error =
      some "Max retries exceeded" ∧
    (BaseAgent.execute (fun _ => .ok (some [])) (-1)).result.retry_count = 0 ∧
    (BaseAgent.execute (fun _ => .ok (some [])) (-1)).calls = 0 :=
  C10_negative_max_retries (fun _ => .ok (some [])) (-1) (by norm_num)

/-! ## Helper lemmas for the orchestrator -/

theorem getKey_map {α β : Type} (g : α → β) (l : List (String × α)) (k : String) :
    getKey (l.map (fun kv => (kv.1, g kv.2))) k = (getKey l k).map g := by
  induction l with
  | nil => rfl
  | cons hd tl ih =>
    by_cases hk : hd.1 = k
    · simp [getKey, List.find?, hk]
    · simpa [getKey, List.find?, hk] using ih

/-! ## Concrete stage agents used by witnesses and counterexamples -/

/-- A stage agent that always succeeds with no output payload (so the
ingestion → document re-validation passes trivially). -/
def okNoneAgent : AgentResult := { status := AgentStatus.SUCCESS }

/-- A stage agent result that succeeds with a small payload. -/
def okPayAgent : AgentResult :=
  { status := AgentStatus.SUCCESS, output := some [("k", .str "v")] }

/-- A pipeline where every agent succeeds; ingestion produces no payload so
the run takes the full path. -/
def stubOkAgents : StageAgents :=
  { ingestion := fun _ => okNoneAgent, extraction := fun _ => okPayAgent,
    simplification := fun _ => okPayAgent, related_research := fun _ => okPayAgent,
    code_generation := fun _ => okPayAgent, literature_review := fun _ => okPayAgent,
    gap_analysis := fun _ => okPayAgent }

/-- The same pipeline but with a failing ingestion stage. -/
def stubFailIngestion : StageAgents :=
  { stubOkAgents with
    ingestion := fun _ => { status := AgentStatus.FAILED, error := some "parse error",
                            execution_time_seconds := 3, retry_count := 1 } }

/-! ## Claim C5: short-circuit on stage-1 or stage-2 failure -/

/-- A pipeline whose ingestion succeeds (with no payload) and whose extraction
stage fails. -/
def extrFailAgents : StageAgents :=
  { stubOkAgents with
    extraction := fun _ => { status := AgentStatus.FAILED, error := some "llm error",
                             execution_time_seconds := 4 } }

/-- C5: if stage 1 (ingestion) or stage 2 (extraction) yields a `Failed`
Task Result, `run_pipeline` stops immediately without attempting any
downstream stage and returns a partial output.  First conjunct: a run whose
stage 1 fails invokes only the ingestion agent, all seven output sections are
empty placeholders, and the metadata agent-status table reports only stage 1,
with status `failed`.  Second conjunct: a run whose stage 1 does not fail
(and whose ingestion payload re-validates) but whose stage 2 fails invokes
only ingestion and extraction, every section downstream of stage 1 is the
empty placeholder, and the metadata table reports exactly stages 1 and 2,
the latter with status `failed`. -/
theorem C5_short_circuit (agents : StageAgents) (raw : Payload)
    (d : Option StructuredDocument) :
    ((agents.ingestion raw).status = AgentStatus.FAILED →
      (Orchestrator.run_pipeline agents freshState raw).invoked = ["ingestion"] ∧
      (Orchestrator.run_pipeline agents freshState raw).out =
        .ok { paper := [], knowledge_card := [], explanations := [], related_papers := [],
              literature_review := [], gap_analysis := [], code_prototype := [],
              metadata := { total_time := 0,
                            agent_statuses := [("ingestion",
                              { status := AgentStatus.FAILED,
                                time := (agents.ingestion raw).execution_time_seconds,
                                error := (agents.ingestion raw).error })] } }) ∧
    ((agents.ingestion raw).status ≠ AgentStatus.FAILED →
     Orchestrator.docOfOutput (agents.ingestion raw).output = .ok d →
     (agents.extraction d).status = AgentStatus.FAILED →
      (Orchestrator.run_pipeline agents freshState raw).invoked = ["ingestion", "extraction"] ∧
      ∃ o, (Orchestrator.run_pipeline agents freshState raw).out = .ok o ∧
        o.knowledge_card = [] ∧ o.explanations = [] ∧ o.related_papers = [] ∧
        o.literature_review = [] ∧ o.gap_analysis = [] ∧ o.code_prototype = [] ∧
        o.metadata.agent_statuses =
          [("ingestion", Orchestrator.statusEntryOf (agents.ingestion raw)),
           ("extraction", { status := AgentStatus.FAILED,
                            time := (agents.extraction d).execution_time_seconds,
                            error := (agents.extraction d).error })]) := by
  constructor
  · intro h1
    constructor
    · simp [Orchestrator.run_pipeline, Orchestrator.emit, freshState, h1]
    · simp [Orchestrator.run_pipeline, Orchestrator.emit, freshState, h1,
        Orchestrator.assemble_output, Orchestrator.safe_output, Orchestrator.statusEntryOf,
        setKey, getKey, truthy, AgentStatus.FAILED, AgentStatus.SUCCESS]
  · intro h1 hd h2
    have h1s : ¬((agents.ingestion raw).status = "failed") := h1
    have h2s : (agents.extraction d).status = "failed" := h2
    constructor
    · simp [Orchestrator.run_pipeline, Orchestrator.emit, freshState, h1s, hd, h2s,
        AgentStatus.FAILED]
    · refine ⟨Orchestrator.assemble_output
        [("ingestion", agents.ingestion raw), ("extraction", agents.extraction d)] 0,
        ?_, ?_, ?_, ?_, ?_, ?_, ?_, ?_⟩
      · simp [Orchestrator.run_pipeline, Orchestrator.emit, freshState, h1s, hd, h2s,
          setKey, AgentStatus.FAILED]
      · simp [Orchestrator.assemble_output, Orchestrator.safe_output, getKey, h2s,
          AgentStatus.SUCCESS]
      · simp [Orchestrator.assemble_output, Orchestrator.safe_output, getKey]
      · simp [Orchestrator.assemble_output, Orchestrator.safe_output, getKey]
      · simp [Orchestrator.assemble_output, Orchestrator.safe_output, getKey]
      · simp [Orchestrator.assemble_output, Orchestrator.safe_output, getKey]
      · simp [Orchestrator.assemble_output, Orchestrator.safe_output, getKey]
      · simp [Orchestrator.assemble_output, Orchestrator.statusEntryOf, h2,
          AgentStatus.FAILED]

/-- C5 (witness): the theorem applied twice — to a pipeline whose ingestion
agent fails with error "parse error" after 3 time units (first conjunct), and
to a pipeline whose ingestion succeeds and whose extraction agent fails with
error "llm error" after 4 time units (second conjunct). -/
theorem C5_short_circuit_witness :
    ((Orchestrator.run_pipeline stubFailIngestion freshState []).invoked = ["ingestion"] ∧
     (Orchestrator.run_pipeline stubFailIngestion freshState []).out =
       .ok { paper := [], knowledge_card := [], explanations := [], related_papers := [],
             literature_review := [], gap_analysis := [], code_prototype := [],
             metadata := { total_time := 0,
                           agent_statuses := [("ingestion",
                             { status := AgentStatus.FAILED, time := 3,
                               error := some "parse error" })] } }) ∧
    ((Orchestrator.run_pipeline extrFailAgents freshState []).invoked =
       ["ingestion", "extraction"] ∧
     ∃ o, (Orchestrator.run_pipeline extrFailAgents freshState []).out = .ok o ∧
       o.knowledge_card = [] ∧ o.explanations = [] ∧ o.related_papers = [] ∧
       o.literature_review = [] ∧ o.gap_analysis = [] ∧ o.code_prototype = [] ∧
       o.metadata.agent_statuses =
         [("ingestion", { status := AgentStatus.SUCCESS, time := 0, error := none }),
          ("extraction", { status := AgentStatus.FAILED, time := 4,
                           error := some "llm error" })]) :=
  ⟨(C5_short_circuit stubFailIngestion [] none).1 rfl,
   (C5_short_circuit extrFailAgents [] none).2 (by decide) rfl rfl⟩

/-! ## Claim C6: degraded continuation when stage 3b does not succeed -/

/-- C6: in every run where stage 2 (extraction) succeeds but stage 3b
(related research) does not, the literature-review agent is never invoked;
the result table instead records the synthesized `Failed` result with the
dependency-unavailable reason "Related research unavailable"; and stage 5
(gap analysis) still executes — with empty `{}` placeholders for the
unavailable review and related inputs — and is recorded in the result table
and the metadata agent-status table. -/
theorem C6_degraded_continuation (agents : StageAgents) (raw : Payload)
    (d : Option StructuredDocument)
    (h1 : (agents.ingestion raw).status = AgentStatus.SUCCESS)
    (hd : Orchestrator.docOfOutput (agents.ingestion raw).output = .ok d)
    (h2 : (agents.extraction d).status = AgentStatus.SUCCESS)
    (h3 : (agents.related_research (agents.extraction d).output).status ≠ AgentStatus.SUCCESS) :
    "literature_review" ∉ (Orchestrator.run_pipeline agents freshState raw).invoked ∧
    getKey (Orchestrator.run_pipeline agents freshState raw).state.results "literature_review" =
      some Orchestrator.relatedUnavailableResult ∧
    "gap_analysis" ∈ (Orchestrator.run_pipeline agents freshState raw).invoked ∧
    getKey (Orchestrator.run_pipeline agents freshState raw).state.results "gap_analysis" =
      some (agents.gap_analysis
        [("knowledge", optJ (agents.extraction d).output), ("review", .obj []),
         ("related", .obj [])]) ∧
    ∃ o, (Orchestrator.run_pipeline agents freshState raw).out = .ok o ∧
      getKey o.metadata.agent_statuses "gap_analysis" =
        some { status := (agents.gap_analysis
                 [("knowledge", optJ (agents.extraction d).output), ("review", .obj []),
                  ("related", .obj [])]).status,
               time := (agents.gap_analysis
                 [("knowledge", optJ (agents.extraction d).output), ("review", .obj []),
                  ("related", .obj [])]).execution_time_seconds,
               error := (agents.gap_analysis
                 [("knowledge", optJ (agents.extraction d).output), ("review", .obj []),
                  ("related", .obj [])]).error } := by
  have h1s : (agents.ingestion raw).status = "success" := h1
  have h2s : (agents.extraction d).status = "success" := h2
  have h3s : ¬((agents.related_research (agents.extraction d).output).status = "success") := h3
  refine ⟨?_, ?_, ?_, ?_, ?_⟩ <;>
    simp [Orchestrator.run_pipeline, Orchestrator.emit, freshState, h1s, hd, h2s, h3s,
      Orchestrator.assemble_output, Orchestrator.safe_output, Orchestrator.statusEntryOf,
      setKey, getKey, truthy, Orchestrator.relatedUnavailableResult,
      AgentStatus.FAILED, AgentStatus.SUCCESS]

/-- A pipeline whose related-research agent fails while everything upstream
succeeds. -/
def relFailAgents : StageAgents :=
  { stubOkAgents with
    related_research := fun _ => { status := AgentStatus.FAILED, error := some "search down" } }

/-- C6 (witness): the theorem applied to a concrete pipeline in which
ingestion and extraction succeed and related research fails. -/
theorem C6_witness :
    "literature_review" ∉ (Orchestrator.run_pipeline relFailAgents freshState []).invoked ∧
    getKey (Orchestrator.run_pipeline relFailAgents freshState []).state.results
      "literature_review" = some Orchestrator.relatedUnavailableResult ∧
    "gap_analysis" ∈ (Orchestrator.run_pipeline relFailAgents freshState []).invoked ∧
    getKey (Orchestrator.run_pipeline relFailAgents freshState []).state.results "gap_analysis" =
      some okPayAgent ∧
    ∃ o, (Orchestrator.run_pipeline relFailAgents freshState []).out = .ok o ∧
      getKey o.metadata.agent_statuses "gap_analysis" =
        some { status := AgentStatus.SUCCESS, time := 0, error := none } :=
  C6_degraded_continuation relFailAgents [] none rfl rfl rfl (by decide)

/-! ## Claim C1: run_pipeline and fault propagation -/

/-- A pipeline whose ingestion agent reports success with a dict payload that
does not validate as a `StructuredDocument` (it is missing every required
field). -/
def badDocAgents : StageAgents :=
  { stubOkAgents with
    ingestion := fun _ => { status := AgentStatus.SUCCESS, output := some [] } }

/-- C1 (counterexample): `run_pipeline` can propagate a fault even though
every agent's `execute` returns a terminal Task Result: if ingestion succeeds
with a dict payload that fails `StructuredDocument` re-validation, the
`StructuredDocument(**ingestion_result.output)` call at the start of stage 2
raises a pydantic validation error that propagates to the caller instead of a
`PipelineOutput`. -/
theorem C1_counterexample :
    (badDocAgents.ingestion []).status = AgentStatus.SUCCESS ∧
    (Orchestrator.run_pipeline badDocAgents freshState []).out =
      .error "title: field required" := by
  exact ⟨rfl, rfl⟩

/-- C1 (amended): `run_pipeline` returns a `PipelineOutput` and never
propagates a fault provided that, whenever the ingestion result is not
`Failed` and carries a dict payload, that dict re-validates as a
`StructuredDocument`.  (The document re-validation at the start of stage 2 is
the one fault path; every stage-level failure is otherwise visible only
through the metadata/status block.) -/
theorem C1_amended (agents : StageAgents) (raw : Payload)
    (hdoc : ∀ dct, (agents.ingestion raw).status ≠ AgentStatus.FAILED →
      (agents.ingestion raw).output = some dct →
      ∃ doc, mkStructuredDocument dct = .ok doc) :
    ∃ o, (Orchestrator.run_pipeline agents freshState raw).out = .ok o := by
  by_cases hf : (agents.ingestion raw).status = "failed"
  · cases hX : (Orchestrator.run_pipeline agents freshState raw).out with
    | ok o => exact ⟨o, rfl⟩
    | error e =>
      simp [Orchestrator.run_pipeline, Orchestrator.emit, freshState, hf,
        AgentStatus.FAILED, AgentStatus.SUCCESS] at hX
  · have hok : ∃ d, Orchestrator.docOfOutput (agents.ingestion raw).output = .ok d := by
      cases houtput : (agents.ingestion raw).output with
      | none => exact ⟨none, rfl⟩
      | some dct =>
        obtain ⟨doc, hmk⟩ := hdoc dct hf houtput
        refine ⟨some doc, ?_⟩
        simp only [houtput, Orchestrator.docOfOutput]
        rw [hmk]
        rfl
    obtain ⟨d, hd⟩ := hok
    by_cases he : (agents.extraction d).status = "failed"
    · cases hX : (Orchestrator.run_pipeline agents freshState raw).out with
      | ok o => exact ⟨o, rfl⟩
      | error e =>
        simp [Orchestrator.run_pipeline, Orchestrator.emit, freshState, hf, hd, he,
          AgentStatus.FAILED, AgentStatus.SUCCESS] at hX
    · cases hX : (Orchestrator.run_pipeline agents freshState raw).out with
      | ok o => exact ⟨o, rfl⟩
      | error e =>
        simp [Orchestrator.run_pipeline, Orchestrator.emit, freshState, hf, hd, he,
          AgentStatus.FAILED, AgentStatus.SUCCESS] at hX

/-- A dict payload that does validate as a `StructuredDocument`. -/
def validDocDict : Payload :=
  [("title", .str "T"), ("authors", .arr [.str "A"]), ("abstract", .str "Ab"),
   ("sections", .arr [.obj [("title", .str "S1"), ("content", .str "C1")]]),
   ("source_type", .str "pdf"), ("raw_text", .str "R")]

/-- A pipeline whose ingestion agent succeeds with a valid document payload. -/
def docOkAgents : StageAgents :=
  { stubOkAgents with
    ingestion := fun _ => { status := AgentStatus.SUCCESS, output := some validDocDict } }

/-- C1 (witness): the amended theorem applied to a concrete pipeline whose
ingestion output is a dict that validates as a `StructuredDocument`. -/
theorem C1_amended_witness :
    ∃ o, (Orchestrator.run_pipeline docOkAgents freshState []).out = .ok o := by
  apply C1_amended docOkAgents []
  intro dct _ h
  have hd : dct = validDocDict := by
    have : some validDocDict = some dct := h
    exact (Option.some.inj this).symm
  subst hd
  exact ⟨_, rfl⟩

/-! ## Claim C7: the Result Assembler -/

/-- C7 (counterexample): for a result table holding a `Succeeded` ingestion
result with an absent payload, the Result Assembler does not place that
stage's output verbatim into the `paper` section: the output is absent
(`None`), yet the section receives the `{}` placeholder. -/
theorem C7_counterexample :
    (Orchestrator.assemble_output [("ingestion", { status := AgentStatus.SUCCESS })] 0).paper
      = [] ∧
    ({ status := AgentStatus.SUCCESS } : AgentResult).output = none ∧
    ¬(some (Orchestrator.assemble_output
        [("ingestion", { status := AgentStatus.SUCCESS })] 0).paper =
      ({ status := AgentStatus.SUCCESS } : AgentResult).output) :=
  ⟨rfl, rfl, fun h => Option.noConfusion h⟩

/-- C7 (amended): for every result table and total duration, the Result
Assembler places a `Succeeded` stage's present payload verbatim into that
stage's named output section (a present-but-empty payload coincides with the
placeholder); a `Succeeded` stage with an absent payload, every stage whose
result is not `Succeeded`, and every slot with no recorded result receive the
`{}` placeholder; and the attached metadata block carries the run's total
duration and, for every stage present in the table, its status, elapsed time
and error text. -/
theorem C7_amended (results : List (String × AgentResult)) (t : Nat) :
    (∀ key r p, getKey results key = some r → r.status = AgentStatus.SUCCESS →
      r.output = some p → Orchestrator.safe_output results key = p) ∧
    (∀ key r, getKey results key = some r →
      (r.status ≠ AgentStatus.SUCCESS ∨ r.output = none) →
      Orchestrator.safe_output results key = []) ∧
    (∀ key, getKey results key = none → Orchestrator.safe_output results key = []) ∧
    ((Orchestrator.assemble_output results t).paper =
        Orchestrator.safe_output results "ingestion" ∧
     (Orchestrator.assemble_output results t).knowledge_card =
        Orchestrator.safe_output results "extraction" ∧
     (Orchestrator.assemble_output results t).explanations =
        Orchestrator.safe_output results "simplification" ∧
     (Orchestrator.assemble_output results t).related_papers =
        Orchestrator.safe_output results "related_research" ∧
     (Orchestrator.assemble_output results t).literature_review =
        Orchestrator.safe_output results "literature_review" ∧
     (Orchestrator.assemble_output results t).gap_analysis =
        Orchestrator.safe_output results "gap_analysis" ∧
     (Orchestrator.assemble_output results t).code_prototype =
        Orchestrator.safe_output results "code_generation") ∧
    (Orchestrator.assemble_output results t).metadata.total_time = t ∧
    (∀ key r, getKey results key = some r →
      getKey (Orchestrator.assemble_output results t).metadata.agent_statuses key =
        some (Orchestrator.statusEntryOf r)) := by
  refine ⟨?_, ?_, ?_, ⟨rfl, rfl, rfl, rfl, rfl, rfl, rfl⟩, rfl, ?_⟩
  · intro key r p hk hs hp
    by_cases hp0 : p.isEmpty
    · have hpe : p = [] := by
        cases p with
        | nil => rfl
        | cons a l => simp [List.isEmpty] at hp0
      subst hpe
      simp [Orchestrator.safe_output, hk, hs, hp, truthy]
    · simp [Orchestrator.safe_output, hk, hs, hp, truthy, hp0]
  · intro key r hk hor
    rcases hor with hs | ho
    · simp [Orchestrator.safe_output, hk, hs]
    · simp [Orchestrator.safe_output, hk, ho, truthy]
  · intro key hk
    simp [Orchestrator.safe_output, hk]
  · intro key r hk
    show getKey (results.map (fun kv => (kv.1, Orchestrator.statusEntryOf kv.2))) key = _
    rw [getKey_map, hk]
    rfl

/-- C7 (witness): the amended theorem applied to a concrete three-entry result
table — a `Succeeded` result with a non-empty payload (placed verbatim), a
`Failed` result (placeholder), a `Succeeded` result with an absent payload
(placeholder) — with total duration 5. -/
theorem C7_amended_witness :
    Orchestrator.safe_output
      [("ingestion", okPayAgent),
       ("extraction", { status := AgentStatus.FAILED, error := some "e",
                        execution_time_seconds := 2 }),
       ("simplification", okNoneAgent)] "ingestion" = [("k", .str "v")] ∧
    Orchestrator.safe_output
      [("ingestion", okPayAgent),
       ("extraction", { status := AgentStatus.FAILED, error := some "e",
                        execution_time_seconds := 2 }),
       ("simplification", okNoneAgent)] "extraction" = [] ∧
    Orchestrator.safe_output
      [("ingestion", okPayAgent),
       ("extraction", { status := AgentStatus.FAILED, error := some "e",
                        execution_time_seconds := 2 }),
       ("simplification", okNoneAgent)] "simplification" = [] ∧
    Orchestrator.safe_output
      [("ingestion", okPayAgent),
       ("extraction", { status := AgentStatus.FAILED, error := some "e",
                        execution_time_seconds := 2 }),
       ("simplification", okNoneAgent)] "gap_analysis" = [] ∧
    (Orchestrator.assemble_output
      [("ingestion", okPayAgent),
       ("extraction", { status := AgentStatus.FAILED, error := some "e",
                        execution_time_seconds := 2 }),
       ("simplification", okNoneAgent)] 5).metadata.total_time = 5 ∧
    getKey (Orchestrator.assemble_output
      [("ingestion", okPayAgent),
       ("extraction", { status := AgentStatus.FAILED, error := some "e",
                        execution_time_seconds := 2 }),
       ("simplification", okNoneAgent)] 5).metadata.agent_statuses "extraction" =
      some { status := AgentStatus.FAILED, time := 2, error := some "e" } := by
  have h := C7_amended
    [("ingestion", okPayAgent),
     ("extraction", { status := AgentStatus.FAILED, error := some "e",
                      execution_time_seconds := 2 }),
     ("simplification", okNoneAgent)] 5
  exact ⟨h.1 "ingestion" okPayAgent [("k", .str "v")] rfl rfl rfl,
    h.2.1 "extraction" _ rfl (Or.inl (by decide)),
    h.2.1 "simplification" okNoneAgent rfl (Or.inr rfl),
    h.2.2.1 "gap_analysis" rfl,
    h.2.2.2.2.1,
    h.2.2.2.2.2 "extraction" _ rfl⟩

/-! ## Claim C8: per-stage progress-event ordering -/

/-- Every run's progress events, projected to (stage, status), take one of
exactly four shapes: stage-1 failure short-circuit, abort by the document
re-validation fault, stage-2 failure short-circuit, or the full pipeline. -/
theorem run_pipeline_eventSig (agents : StageAgents) (s0 : OrchState) (raw : Payload) :
    (Orchestrator.run_pipeline agents s0 raw).events.map (fun e => (e.stage, e.status)) =
      [("reading_paper", "running"), ("reading_paper", "failed")] ∨
    (Orchestrator.run_pipeline agents s0 raw).events.map (fun e => (e.stage, e.status)) =
      [("reading_paper", "running"), ("reading_paper", "done"),
       ("extracting_methodology", "running")] ∨
    (Orchestrator.run_pipeline agents s0 raw).events.map (fun e => (e.stage, e.status)) =
      [("reading_paper", "running"), ("reading_paper", "done"),
       ("extracting_methodology", "running"), ("extracting_methodology", "failed")] ∨
    (Orchestrator.run_pipeline agents s0 raw).events.map (fun e => (e.stage, e.status)) =
      [("reading_paper", "running"), ("reading_paper", "done"),
       ("extracting_methodology", "running"), ("extracting_methodology", "done"),
       ("finding_related_work", "running"), ("comparing_contributions", "running"),
       ("building_prototype", "running"), ("finding_related_work", "done"),
       ("comparing_contributions", "done"), ("building_prototype", "done"),
       ("detecting_research_gaps", "running"), ("generating_hypothesis", "running"),
       ("detecting_research_gaps", "done"), ("generating_hypothesis", "done")] := by
  by_cases hf : (agents.ingestion raw).status = "failed"
  · left
    simp [Orchestrator.run_pipeline, Orchestrator.emit, hf, AgentStatus.FAILED]
  · cases hdoc : Orchestrator.docOfOutput (agents.ingestion raw).output with
    | error err =>
      right; left
      simp [Orchestrator.run_pipeline, Orchestrator.emit, hf, hdoc, AgentStatus.FAILED]
    | ok d =>
      by_cases he : (agents.extraction d).status = "failed"
      · right; right; left
        simp [Orchestrator.run_pipeline, Orchestrator.emit, hf, hdoc, he, AgentStatus.FAILED]
      · right; right; right
        simp [Orchestrator.run_pipeline, Orchestrator.emit, hf, hdoc, he,
          AgentStatus.FAILED, AgentStatus.SUCCESS]

/-- C8 (counterexample): in a run whose stage 1 fails, the stage
"extracting_methodology" emits no events at all, so its status sequence is
not `["running", t]` for any terminal `t` — the claimed shape does not hold
for every one of the 7 stages in every run. -/
theorem C8_counterexample :
    Orchestrator.stageStatuses (Orchestrator.run_pipeline stubFailIngestion freshState [])
      "extracting_methodology" = [] ∧
    "extracting_methodology" ∈ Orchestrator.STAGES ∧
    ¬∃ t, (t = "done" ∨ t = "failed") ∧
      Orchestrator.stageStatuses (Orchestrator.run_pipeline stubFailIngestion freshState [])
        "extracting_methodology" = ["running", t] := by
  refine ⟨rfl, by decide, ?_⟩
  rintro ⟨t, _, h⟩
  rw [show Orchestrator.stageStatuses (Orchestrator.run_pipeline stubFailIngestion freshState [])
      "extracting_methodology" = ([] : List String) from rfl] at h
  exact List.noConfusion h

/-- C8 (amended): for every run and every one of the 7 stages, the sequence
of progress statuses emitted for that stage is a prefix of
`["running", t]` with `t ∈ {"done", "failed"}`: it is `[]` for a stage never
started (after a stage-1/2 short-circuit), `["running"]` only when the run is
aborted between a stage's start and its terminal event by the document
re-validation fault, and otherwise exactly `["running", t]` — the `running`
event strictly precedes the single terminal event, and this per-stage order
is independent of how the concurrent group's task results interleave, since
all events are emitted from the Supervisor's own sequential control flow. -/
theorem C8_amended (agents : StageAgents) (s0 : OrchState) (raw : Payload)
    (stage : String) (hs : stage ∈ Orchestrator.STAGES) :
    Orchestrator.stageStatuses (Orchestrator.run_pipeline agents s0 raw) stage = [] ∨
    Orchestrator.stageStatuses (Orchestrator.run_pipeline agents s0 raw) stage = ["running"] ∨
    Orchestrator.stageStatuses (Orchestrator.run_pipeline agents s0 raw) stage
      = ["running", "done"] ∨
    Orchestrator.stageStatuses (Orchestrator.run_pipeline agents s0 raw) stage
      = ["running", "failed"] := by
  have key : Orchestrator.stageStatuses (Orchestrator.run_pipeline agents s0 raw) stage =
      ((Orchestrator.run_pipeline agents s0 raw).events.map
        (fun e => (e.stage, e.status))).filterMap
          (fun p => if p.1 = stage then some p.2 else none) := by
    rw [List.filterMap_map]
    rfl
  have hES := run_pipeline_eventSig agents s0 raw
  simp only [Orchestrator.STAGES, List.mem_cons, List.not_mem_nil, or_false] at hs
  rcases hES with h | h | h | h <;> rw [key, h] <;>
    rcases hs with rfl | rfl | rfl | rfl | rfl | rfl | rfl <;> simp

/-- C8 (witness): the amended theorem applied to the all-success pipeline and
the stage "reading_paper". -/
theorem C8_amended_witness :
    Orchestrator.stageStatuses (Orchestrator.run_pipeline stubOkAgents freshState [])
      "reading_paper" = [] ∨
    Orchestrator.stageStatuses (Orchestrator.run_pipeline stubOkAgents freshState [])
      "reading_paper" = ["running"] ∨
    Orchestrator.stageStatuses (Orchestrator.run_pipeline stubOkAgents freshState [])
      "reading_paper" = ["running", "done"] ∨
    Orchestrator.stageStatuses (Orchestrator.run_pipeline stubOkAgents freshState [])
      "reading_paper" = ["running", "failed"] :=
  C8_amended stubOkAgents freshState [] "reading_paper" (by decide)

/-! ## Claim C9: Run State freshness across invocations -/

/-- C9 (counterexample): the Run State is created in `__init__`, not in
`run_pipeline`; calling `run_pipeline` twice on the same Orchestrator
instance leaks the first run's results into the second run's assembled
output.  After an all-success run, a second run on the same instance whose
ingestion fails still reports the first run's extraction payload in its
`knowledge_card` section — even though the second run never invoked the
extraction agent — whereas the same failing run on a fresh instance reports
the empty placeholder. -/
theorem C9_counterexample :
    ((Orchestrator.run_pipeline stubFailIngestion
        (Orchestrator.run_pipeline stubOkAgents freshState []).state []).out.toOption.map
      (fun o => o.knowledge_card)) = some [("k", .str "v")] ∧
    "extraction" ∉ (Orchestrator.run_pipeline stubFailIngestion
        (Orchestrator.run_pipeline stubOkAgents freshState []).state []).invoked ∧
    ((Orchestrator.run_pipeline stubFailIngestion freshState []).out.toOption.map
      (fun o => o.knowledge_card)) = some [] := by
  exact ⟨rfl, by decide, rfl⟩

/-- C9 (amended): the Run State is fresh per Orchestrator instance, not per
`run_pipeline` invocation.  For a run started on a freshly constructed
instance the claim's isolation holds: the final result table contains exactly
the keys written during that invocation (in particular nothing from any other
run), so the assembled output and metadata reflect only this run.  Two
invocations on one shared instance, however, can leak results (see the
counterexample); the repository's caller constructs a new Orchestrator per
pipeline run. -/
theorem C9_amended (agents : StageAgents) (raw : Payload) :
    ((Orchestrator.run_pipeline agents freshState raw).state.results.map (fun kv => kv.1)) =
      (Orchestrator.run_pipeline agents freshState raw).written := by
  by_cases hf : (agents.ingestion raw).status = "failed"
  · simp [Orchestrator.run_pipeline, Orchestrator.emit, freshState, setKey, hf,
      AgentStatus.FAILED]
  · cases hdoc : Orchestrator.docOfOutput (agents.ingestion raw).output with
    | error err =>
      simp [Orchestrator.run_pipeline, Orchestrator.emit, freshState, setKey, hf, hdoc,
        AgentStatus.FAILED]
    | ok d =>
      by_cases he : (agents.extraction d).status = "failed"
      · simp [Orchestrator.run_pipeline, Orchestrator.emit, freshState, setKey, hf, hdoc, he,
          AgentStatus.FAILED]
      · simp [Orchestrator.run_pipeline, Orchestrator.emit, freshState, setKey, getKey, hf,
          hdoc, he, AgentStatus.FAILED, AgentStatus.SUCCESS]

end ResearchPilot
